import Mathlib

/-
Verification of the options pricing, strategy and portfolio risk engine.

The definitions below are a shallow embedding of the Python source:
  - src/services/options_pricing.py  (Black-Scholes pricing, Greeks, the
    implied volatility solver and the hedge search)
  - src/risk/greeks.py               (standalone Black-Scholes delta)
  - src/risk/metrics.py              (concentration risk)
  - src/options/strategies.py        (butterfly strategy)
  - src/portfolio/state.py           (portfolio VaR)
  - src/analytics/stress_testing.py  (stress testing VaR)
  - src/exchanges/deribit_options.py (option contract snapshot)

Machine floats are idealised as real numbers for the transcendental
pricing code and as rationals for the purely arithmetic code.  Python
dictionaries are modelled as lookup functions returning Option values,
Python ZeroDivisionError as an Except error value.
-/

namespace GoQuant

/-! ## Pricing engine: src/services/options_pricing.py and src/risk/greeks.py -/

/-- Error function used by Python math.erf, in its standard integral form. -/
noncomputable def erf (x : ℝ) : ℝ :=
  2 / Real.sqrt Real.pi * ∫ t in (0:ℝ)..x, Real.exp (-t ^ 2)

/-- Standard normal CDF, 0.5 * (1 + erf(x / sqrt 2)).  This is the body of
OptionsPricingService._normal_cdf and of risk.greeks.normal_cdf, which are
textually identical in the source. -/
noncomputable def normal_cdf (x : ℝ) : ℝ :=
  0.5 * (1 + erf (x / Real.sqrt 2))

/-- Standard normal PDF, exp(-x^2/2) / sqrt(2*pi).  Body of
OptionsPricingService._normal_pdf and risk.greeks.normal_pdf. -/
noncomputable def normal_pdf (x : ℝ) : ℝ :=
  Real.exp (-0.5 * x ^ 2) / Real.sqrt (2 * Real.pi)

/-- OptionsPricingService.black_scholes_call. -/
noncomputable def black_scholes_call (S K T r sigma : ℝ) : ℝ :=
  if T ≤ 0 then max (S - K) 0
  else
    let d1 := (Real.log (S / K) + (r + 0.5 * sigma ^ 2) * T) / (sigma * Real.sqrt T)
    let d2 := d1 - sigma * Real.sqrt T
    S * normal_cdf d1 - K * Real.exp (-r * T) * normal_cdf d2

/-- OptionsPricingService.black_scholes_put. -/
noncomputable def black_scholes_put (S K T r sigma : ℝ) : ℝ :=
  if T ≤ 0 then max (K - S) 0
  else
    let d1 := (Real.log (S / K) + (r + 0.5 * sigma ^ 2) * T) / (sigma * Real.sqrt T)
    let d2 := d1 - sigma * Real.sqrt T
    K * Real.exp (-r * T) * normal_cdf (-d2) - S * normal_cdf (-d1)

/-- OptionGreeks dataclass from src/services/options_pricing.py. -/
structure OptionGreeks where
  delta : ℝ
  gamma : ℝ
  theta : ℝ
  vega : ℝ
  rho : ℝ

/-- OptionsPricingService.calculate_greeks.  The option_type argument is the
Python string, compared against "call" exactly as in the source (anything
else falls into the put branch). -/
noncomputable def calculate_greeks (S K T r sigma : ℝ) (option_type : String) : OptionGreeks :=
  if T ≤ 0 then
    if option_type = "call" then
      ⟨if S > K then 1 else 0, 0, 0, 0, 0⟩
    else
      ⟨if S < K then -1 else 0, 0, 0, 0, 0⟩
  else
    let d1 := (Real.log (S / K) + (r + 0.5 * sigma ^ 2) * T) / (sigma * Real.sqrt T)
    let d2 := d1 - sigma * Real.sqrt T
    let delta := if option_type = "call" then normal_cdf d1 else normal_cdf d1 - 1
    let gamma := normal_pdf d1 / (S * sigma * Real.sqrt T)
    let theta :=
      if option_type = "call" then
        (-S * normal_pdf d1 * sigma / (2 * Real.sqrt T)
          - r * K * Real.exp (-r * T) * normal_cdf d2) / 365
      else
        (-S * normal_pdf d1 * sigma / (2 * Real.sqrt T)
          + r * K * Real.exp (-r * T) * normal_cdf (-d2)) / 365
    let vega := S * Real.sqrt T * normal_pdf d1 / 100
    let rho :=
      if option_type = "call" then K * T * Real.exp (-r * T) * normal_cdf d2 / 100
      else -K * T * Real.exp (-r * T) * normal_cdf (-d2) / 100
    ⟨delta, gamma, theta, vega, rho⟩

/-- risk.greeks.black_scholes_delta (src/risk/greeks.py).  Note: at T <= 0 the
source returns 1.0 for calls and -1.0 for puts unconditionally, without
looking at moneyness. -/
noncomputable def black_scholes_delta (S K T r sigma : ℝ) (option_type : String) : ℝ :=
  if T ≤ 0 then
    if option_type = "call" then 1 else -1
  else
    let d1 := (Real.log (S / K) + (r + 0.5 * sigma * sigma) * T) / (sigma * Real.sqrt T)
    if option_type = "call" then normal_cdf d1 else normal_cdf d1 - 1

/-- The loop body of OptionsPricingService.calculate_implied_volatility.
The fuel argument is the remaining number of iterations of the Python
`for _ in range(100)` loop; running out of fuel returns the current sigma,
matching the fall-through after the loop.  Each iteration prices the option
at the current sigma, reads off raw vega (the reported vega times 100),
breaks when raw vega is below 1e-10, otherwise takes the Newton-Raphson
step, clamps it to [0.01, 5.0] and breaks when the clamped step moved
sigma by less than 1e-6. -/
noncomputable def ivLoop (market_price S K T r : ℝ) (option_type : String) :
    ℕ → ℝ → ℝ
  | 0, sigma => sigma
  | n + 1, sigma =>
    let price := if option_type = "call" then black_scholes_call S K T r sigma
      else black_scholes_put S K T r sigma
    let vega := (calculate_greeks S K T r sigma option_type).vega * 100
    if |vega| < 1e-10 then sigma
    else
      let diff := market_price - price
      let sigma_new := max 0.01 (min 5 (sigma + diff / vega))
      if |sigma_new - sigma| < 1e-6 then sigma_new
      else ivLoop market_price S K T r option_type n sigma_new

/-- OptionsPricingService.calculate_implied_volatility: returns 0.0 for
T <= 0, otherwise runs at most 100 Newton-Raphson iterations from the
initial guess sigma = 0.5. -/
noncomputable def calculate_implied_volatility (market_price S K T r : ℝ)
    (option_type : String) : ℝ :=
  if T ≤ 0 then 0
  else ivLoop market_price S K T r option_type 100 0.5

/-! ## Option contracts and the hedge search
(src/exchanges/deribit_options.py, src/services/options_pricing.py).
These are pure rational arithmetic, so they are embedded over ℚ. -/

/-- OptionContract dataclass from src/exchanges/deribit_options.py.  The
expiry timestamp is kept as an uninterpreted string; it plays no role in any of
the computations below. -/
structure OptionContract where
  symbol : String
  strike : ℚ
  expiry : String
  option_type : String
  underlying : String
  exchange : String
  delta : ℚ
  gamma : ℚ
  theta : ℚ
  vega : ℚ
  implied_volatility : ℚ
  last_price : ℚ
  bid : ℚ
  ask : ℚ
  volume_24h : ℚ
  deriving DecidableEq

/-- OptionContract.mid_price: the average of bid and ask.  The source
computes (bid + ask) / 2 unconditionally. -/
def mid_price (c : OptionContract) : ℚ := (c.bid + c.ask) / 2

/-- The last-price fallback inside DeribitOptionsExchange.get_option_ticker:
current_price = float(ticker_data["last_price"] or 0.0), and when that is
<= 0 it is replaced by 5% of strike for puts and 3% of strike for calls.
The value produced here is stored in the contract's last_price field. -/
def ticker_last_price (raw : Option ℚ) (option_type : String) (strike : ℚ) : ℚ :=
  let current_price := raw.getD 0
  if current_price ≤ 0 then
    if option_type = "put" then strike * 0.05 else strike * 0.03
  else current_price

/-- Python runtime errors that the embedded code can raise. -/
inductive PyError where
  | zeroDivisionError
  deriving DecidableEq

/-- One recommendation dictionary appended by
OptionsPricingService.find_optimal_hedge. -/
structure HedgeRec where
  option : OptionContract
  quantity : ℚ
  cost : ℚ
  effectiveness : ℚ
  remaining_delta : ℚ
  deriving DecidableEq

/-- The cost-ceiling filter `if max_cost and cost > max_cost` of
find_optimal_hedge.  A missing ceiling (None) and a zero ceiling are both
falsy in Python, so neither filters anything out. -/
def max_cost_exceeded (max_cost : Option ℚ) (cost : ℚ) : Bool :=
  match max_cost with
  | none => false
  | some m => decide (m ≠ 0 ∧ m < cost)

/-- The candidate loop of OptionsPricingService.find_optimal_hedge.  The
source divides hedge_required by the signed option delta without checking
it for zero; Python float division by zero raises ZeroDivisionError, which
is modelled by the error value. -/
def buildRecs (hedge_required : ℚ) (max_cost : Option ℚ) :
    List OptionContract → Except PyError (List HedgeRec)
  | [] => Except.ok []
  | option :: rest =>
    if option.option_type ∉ (["call", "put"] : List String) then
      buildRecs hedge_required max_cost rest
    else
      let option_delta := if option.option_type = "put" then -|option.delta| else option.delta
      if option_delta = 0 then Except.error PyError.zeroDivisionError
      else
        let quantity := hedge_required / option_delta
        if |quantity| < 0.001 then buildRecs hedge_required max_cost rest
        else
          let cost := |quantity| * mid_price option
          if max_cost_exceeded max_cost cost then buildRecs hedge_required max_cost rest
          else
            let effectiveness := min 1 (|quantity * option_delta| / |hedge_required|)
            match buildRecs hedge_required max_cost rest with
            | Except.error e => Except.error e
            | Except.ok rs =>
              Except.ok (⟨option, quantity, cost, effectiveness,
                hedge_required - quantity * option_delta⟩ :: rs)

/-- The sort key of find_optimal_hedge: ascending lexicographic order on
(-effectiveness, cost). -/
def recommendation_le (a b : HedgeRec) : Bool :=
  decide (-a.effectiveness < -b.effectiveness
    ∨ (-a.effectiveness = -b.effectiveness ∧ a.cost ≤ b.cost))

/-- OptionsPricingService.find_optimal_hedge: returns [] when the required
delta shift is below the 0.01 tolerance, otherwise walks the chain,
sorts the surviving recommendations by (-effectiveness, cost) and returns
the first five. -/
def find_optimal_hedge (portfolio_delta S : ℚ) (option_chain : List OptionContract)
    (target_delta : ℚ) (max_cost : Option ℚ) : Except PyError (List HedgeRec) :=
  let hedge_required := target_delta - portfolio_delta
  if |hedge_required| < 0.01 then Except.ok []
  else
    match buildRecs hedge_required max_cost option_chain with
    | Except.error e => Except.error e
    | Except.ok recommendations =>
      Except.ok ((recommendations.mergeSort recommendation_le).take 5)

/-! ## Strategies (src/options/strategies.py) -/

/-- OptionLeg dataclass from src/options/strategies.py. -/
structure OptionLeg where
  symbol : String
  qty : ℚ
  strike : ℚ
  expiry : String
  option_type : String
  price : ℚ
  delta : ℚ := 0
  gamma : ℚ := 0
  theta : ℚ := 0
  vega : ℚ := 0
  deriving DecidableEq

/-- StrategyPayoff dataclass from src/options/strategies.py.  The Python
payoff_at_expiry dictionary samples the expiry payoff on a fixed price
grid; it is embedded as the underlying price-to-payoff function, of which
the dictionary holds finitely many samples. -/
structure StrategyPayoff where
  max_profit : ℚ
  max_loss : ℚ
  breakeven_points : List ℚ
  payoff_at_expiry : ℚ → ℚ
  current_pnl : ℚ
  margin_required : ℚ

/-- OptionStrategies.butterfly: long one option at the lower strike, short
two at the middle strike, long one at the upper strike.  The net debit is
lower - 2*middle + upper price; max_profit = (middle - lower) - net debit
and max_loss = net debit. -/
def butterfly (lower_strike middle_strike upper_strike
    lower_call_price middle_call_price upper_call_price current_price : ℚ)
    (is_call_butterfly : Bool) : List OptionLeg × StrategyPayoff :=
  let option_type := if is_call_butterfly then "call" else "put"
  let letter := if is_call_butterfly then "C" else "P"
  let lower_leg : OptionLeg :=
    { symbol := "BTC-" ++ toString lower_strike ++ "-" ++ letter
      qty := 1, strike := lower_strike, expiry := "25JUL25"
      option_type := option_type, price := lower_call_price }
  let middle_leg : OptionLeg :=
    { symbol := "BTC-" ++ toString middle_strike ++ "-" ++ letter
      qty := -2, strike := middle_strike, expiry := "25JUL25"
      option_type := option_type, price := middle_call_price }
  let upper_leg : OptionLeg :=
    { symbol := "BTC-" ++ toString upper_strike ++ "-" ++ letter
      qty := 1, strike := upper_strike, expiry := "25JUL25"
      option_type := option_type, price := upper_call_price }
  let total_cost := lower_call_price - 2 * middle_call_price + upper_call_price
  let max_profit := middle_strike - lower_strike - total_cost
  let max_loss := total_cost
  let breakeven_low := lower_strike + total_cost
  let breakeven_high := upper_strike - total_cost
  let payoff := fun price =>
    (if is_call_butterfly then
      max 0 (price - lower_strike) + (-2 * max 0 (price - middle_strike))
        + max 0 (price - upper_strike)
    else
      max 0 (lower_strike - price) + (-2 * max 0 (middle_strike - price))
        + max 0 (upper_strike - price)) - total_cost
  let current_pnl := payoff current_price
  ([lower_leg, middle_leg, upper_leg],
    ⟨max_profit, max_loss, [breakeven_low, breakeven_high], payoff,
      current_pnl, total_cost⟩)

/-! ## Risk metrics (src/risk/metrics.py) -/

/-- The position dictionaries handled by src/risk/metrics.py; only the
symbol and qty keys are read by calculate_concentration_risk. -/
structure RiskPosition where
  symbol : String
  qty : ℚ
  deriving DecidableEq

/-- Result dictionary of calculate_concentration_risk. -/
structure ConcentrationRisk where
  largest_position_pct : ℚ
  top_3_concentration : ℚ
  deriving DecidableEq

/-- The position_sizes list built by the loop in
calculate_concentration_risk: one (symbol, abs(qty * price)) entry per
position whose looked-up price (defaulting to 0) is positive. -/
def position_sizes (positions : List RiskPosition) (prices : String → Option ℚ) :
    List (String × ℚ) :=
  positions.filterMap (fun p =>
    let current_price := (prices p.symbol).getD 0
    if 0 < current_price then some (p.symbol, |p.qty * current_price|) else none)

/-- The total_notional accumulated by the same loop: the sum of all
position_sizes entries. -/
def metrics_total_notional (positions : List RiskPosition)
    (prices : String → Option ℚ) : ℚ :=
  ((position_sizes positions prices).map Prod.snd).sum

/-- risk.metrics.calculate_concentration_risk: zero for an empty position
list or zero total notional, otherwise the largest and the top-3 notional
as percentages of total notional, after sorting descending by notional. -/
def calculate_concentration_risk (positions : List RiskPosition)
    (prices : String → Option ℚ) : ConcentrationRisk :=
  if positions = [] then ⟨0, 0⟩
  else
    let sizes := position_sizes positions prices
    let total_notional := metrics_total_notional positions prices
    if total_notional = 0 then ⟨0, 0⟩
    else
      let sorted := sizes.mergeSort (fun a b => decide (b.2 ≤ a.2))
      let largest_position_pct :=
        if sorted = [] then 0 else ((sorted.headD ("", 0)).2 / total_notional) * 100
      let top_3_notional := ((sorted.take 3).map Prod.snd).sum
      ⟨largest_position_pct, (top_3_notional / total_notional) * 100⟩

/-! ## Portfolio VaR (src/portfolio/state.py) and stress-testing VaR
(src/analytics/stress_testing.py) -/

/-- Position dataclass from src/portfolio/state.py; the timestamp is kept
as an uninterpreted string. -/
structure Position where
  symbol : String
  qty : ℝ
  avg_px : ℝ
  instrument_type : String
  exchange : String
  timestamp : String

/-- The price lookup in Portfolio.get_var_95: the current price when a
price dictionary was supplied and has the symbol, the position's average
price otherwise. -/
def var95_price (current_prices : Option (String → Option ℝ)) (p : Position) : ℝ :=
  match current_prices with
  | some cp =>
    match cp p.symbol with
    | some px => px
    | none => p.avg_px
  | none => p.avg_px

/-- Portfolio.get_var_95: accumulates abs(qty * price) over the positions
and returns 2% of that total ("more realistic VaR: 2% of notional for
crypto portfolio" in the source). -/
def get_var_95 (positions : List Position)
    (current_prices : Option (String → Option ℝ)) : ℝ :=
  (positions.foldl (fun total_notional p =>
    total_notional + |p.qty * var95_price current_prices p|) 0) * 0.02

/-- The total notional get_var_95 accumulates, as a closed-form sum. -/
def portfolio_total_notional (positions : List Position)
    (current_prices : Option (String → Option ℝ)) : ℝ :=
  (positions.map (fun p => |p.qty * var95_price current_prices p|)).sum

/-- The portfolio_value sum of StressTesting._calculate_portfolio_var:
abs(qty * prices.get(symbol, 0)) summed over the positions, which are
(symbol, qty) entries of the portfolio dictionary. -/
def stress_portfolio_value (portfolio_positions : List (String × ℝ))
    (prices : String → Option ℝ) : ℝ :=
  (portfolio_positions.map (fun sp => |sp.2 * (prices sp.1).getD 0|)).sum

/-- StressTesting._calculate_portfolio_var: portfolio value times a daily
volatility of 0.20 / sqrt 252 times the 1.645 multiplier.  The annualized
volatility 0.20 is a literal in the source and the confidence parameter is
never read. -/
noncomputable def calculate_portfolio_var (portfolio_positions : List (String × ℝ))
    (prices : String → Option ℝ) (confidence : ℝ) : ℝ :=
  let portfolio_value := stress_portfolio_value portfolio_positions prices
  let daily_volatility := 0.20 / Real.sqrt 252
  let var_multiplier := 1.645
  portfolio_value * daily_volatility * var_multiplier

/-! ## Concrete inputs used to instantiate the theorems -/

/-- A thin-book put: zero bid and ask but a recorded last trade at 7. -/
def thin_put_contract : OptionContract :=
  ⟨"BTC-26DEC25-100-P", 100, "26DEC25", "put", "BTC", "Deribit",
    -(2/5), 0, 0, 0, 1/2, 7, 0, 0, 0⟩

/-- A put whose bid, ask and last price are all zero. -/
def zero_price_put : OptionContract :=
  ⟨"BTC-26DEC25-100-P2", 100, "26DEC25", "put", "BTC", "Deribit",
    -(2/5), 0, 0, 0, 1/2, 0, 0, 0, 0⟩

/-- A call contract whose delta is exactly zero. -/
def zero_delta_call : OptionContract :=
  ⟨"BTC-26DEC25-200-C", 200, "26DEC25", "call", "BTC", "Deribit",
    0, 0, 0, 0, 1/2, 3, 2, 4, 0⟩

/-- A liquid call with delta 1/2 and a 4/6 bid/ask book. -/
def half_delta_call : OptionContract :=
  ⟨"BTC-26DEC25-100-C", 100, "26DEC25", "call", "BTC", "Deribit",
    1/2, 0, 0, 0, 1/2, 5, 4, 6, 0⟩

/-- The hedge recommendation find_optimal_hedge produces for
half_delta_call against a portfolio delta of 1 and target 0. -/
def half_delta_call_rec : HedgeRec :=
  ⟨half_delta_call, -2, 10, 1, 0⟩

/-- A one-coin spot position bought at 100. -/
def var_cex_position : Position := ⟨"BTC", 1, 100, "spot", "OKX", "t0"⟩

/-- A position whose symbol has no quoted price. -/
def unpriced_position : RiskPosition := ⟨"BTC", 1⟩

/-- An empty price map. -/
def no_prices : String → Option ℚ := fun _ => none

/-! ## C4: intrinsic value at or past expiry -/

/-- C4: for every S, K, r, sigma and every T ≤ 0, black_scholes_call returns
the intrinsic value max(S - K, 0) and black_scholes_put returns
max(K - S, 0); the d1 formula (and its division by sigma * sqrt T) is never
evaluated on this branch. -/
theorem bs_intrinsic_at_expiry (S K T r sigma : ℝ) (hT : T ≤ 0) :
    black_scholes_call S K T r sigma = max (S - K) 0 ∧
    black_scholes_put S K T r sigma = max (K - S) 0 := by
  rw [black_scholes_call, black_scholes_put, if_pos hT, if_pos hT]
  exact ⟨rfl, rfl⟩

/-- Witness for C4 at S = 5, K = 3, T = 0. -/
theorem bs_intrinsic_at_expiry_witness :
    black_scholes_call 5 3 0 0 1 = max ((5:ℝ) - 3) 0 ∧
    black_scholes_put 5 3 0 0 1 = max ((3:ℝ) - 5) 0 :=
  bs_intrinsic_at_expiry 5 3 0 0 1 (le_refl 0)

/-! ## C7: Greeks at or past expiry -/

/-- C7 counterexample: the claim says the delta returned at T ≤ 0 is
determined by moneyness (0 for a call with S ≤ K), but
risk.greeks.black_scholes_delta returns 1 for a call with S = 50 < K = 100
at T = 0. -/
theorem bs_delta_expiry_cex :
    black_scholes_delta 50 100 0 0 (1/2) "call" = 1 ∧ (1:ℝ) ≠ 0 := by
  constructor
  · rw [black_scholes_delta, if_pos (le_refl (0:ℝ)), if_pos rfl]
  · norm_num

/-- C7 (amended): at T ≤ 0, OptionsPricingService.calculate_greeks returns
the moneyness-determined delta (1 for calls with S > K else 0, -1 for puts
with S < K else 0) with gamma, theta, vega and rho all zero; but the
standalone risk.greeks.black_scholes_delta returns 1 for calls and -1 for
puts unconditionally, ignoring moneyness. -/
theorem greeks_at_expiry (S K T r sigma : ℝ) (hT : T ≤ 0) :
    calculate_greeks S K T r sigma "call"
      = ⟨if S > K then 1 else 0, 0, 0, 0, 0⟩ ∧
    calculate_greeks S K T r sigma "put"
      = ⟨if S < K then -1 else 0, 0, 0, 0, 0⟩ ∧
    black_scholes_delta S K T r sigma "call" = 1 ∧
    black_scholes_delta S K T r sigma "put" = -1 := by
  refine ⟨?_, ?_, ?_, ?_⟩ <;>
    simp [calculate_greeks, black_scholes_delta, if_pos hT]

/-- Witness for C7 (amended) at S = 150, K = 100, T = 0. -/
theorem greeks_at_expiry_witness :
    calculate_greeks 150 100 0 0 (1/2) "call"
      = ⟨if (150:ℝ) > 100 then 1 else 0, 0, 0, 0, 0⟩ ∧
    calculate_greeks 150 100 0 0 (1/2) "put"
      = ⟨if (150:ℝ) < 100 then -1 else 0, 0, 0, 0, 0⟩ ∧
    black_scholes_delta 150 100 0 0 (1/2) "call" = 1 ∧
    black_scholes_delta 150 100 0 0 (1/2) "put" = -1 :=
  greeks_at_expiry 150 100 0 0 (1/2) (le_refl 0)

/-! ## C2: mid price and its fallbacks -/

/-- C2 counterexample: the claim says mid price falls back to the last
trade price when bid and ask are both zero, and to 5% of strike for a put
when bid, ask and last are all zero.  On a contract with bid = ask = 0 and
last = 7, mid_price is 0, not 7; on an all-zero put with strike 100 it is
0, not 5. -/
theorem mid_price_fallback_cex :
    mid_price thin_put_contract = 0 ∧ thin_put_contract.last_price = 7 ∧
    mid_price zero_price_put = 0 ∧ zero_price_put.strike * 0.05 = 5 ∧
    (0:ℚ) ≠ 7 ∧ (0:ℚ) ≠ 5 := by
  refine ⟨?_, rfl, ?_, ?_, by norm_num, by norm_num⟩ <;>
    norm_num [mid_price, thin_put_contract, zero_price_put]

/-- C2 (amended): OptionContract.mid_price is always (bid + ask) / 2, with
no fallback of its own.  The fallback ladder lives in get_option_ticker
and feeds the contract's last_price field: a reported last price that is
missing or ≤ 0 is replaced by 5% of strike for puts and 3% of strike for
calls, and a positive reported last price is kept. -/
theorem mid_price_code_behavior (c : OptionContract) (raw pos_raw strike : ℚ)
    (h1 : raw ≤ 0) (h2 : 0 < pos_raw) :
    mid_price c = (c.bid + c.ask) / 2 ∧
    ticker_last_price (some raw) "put" strike = strike * 0.05 ∧
    ticker_last_price (some raw) "call" strike = strike * 0.03 ∧
    ticker_last_price none "put" strike = strike * 0.05 ∧
    ticker_last_price (some pos_raw) "put" strike = pos_raw ∧
    ticker_last_price (some pos_raw) "call" strike = pos_raw := by
  refine ⟨rfl, ?_, ?_, ?_, ?_, ?_⟩ <;>
    simp [ticker_last_price, h1, h2.not_le]

/-- Witness for C2 (amended) with a reported last price of 0 and of 1. -/
theorem mid_price_code_behavior_witness :
    mid_price thin_put_contract
      = (thin_put_contract.bid + thin_put_contract.ask) / 2 ∧
    ticker_last_price (some 0) "put" 100 = 100 * 0.05 ∧
    ticker_last_price (some 0) "call" 100 = 100 * 0.03 ∧
    ticker_last_price none "put" 100 = 100 * 0.05 ∧
    ticker_last_price (some 1) "put" 100 = 1 ∧
    ticker_last_price (some 1) "call" 100 = 1 :=
  mid_price_code_behavior thin_put_contract 0 1 100 (le_refl 0) (by norm_num)

/-! ## C8: butterfly profit/loss identity -/

/-- C8: for a butterfly built from strikes lower < middle < upper with
evenly spaced strikes and any leg prices, max_profit + max_loss equals
middle_strike - lower_strike. -/
theorem butterfly_profit_loss_sum (lower_strike middle_strike upper_strike
    lower_call_price middle_call_price upper_call_price current_price : ℚ)
    (is_call_butterfly : Bool)
    (h1 : lower_strike < middle_strike) (h2 : middle_strike < upper_strike)
    (h3 : upper_strike - middle_strike = middle_strike - lower_strike) :
    (butterfly lower_strike middle_strike upper_strike lower_call_price
      middle_call_price upper_call_price current_price is_call_butterfly).2.max_profit
    + (butterfly lower_strike middle_strike upper_strike lower_call_price
      middle_call_price upper_call_price current_price is_call_butterfly).2.max_loss
    = middle_strike - lower_strike := by
  simp only [butterfly]
  ring

/-- Witness for C8 at strikes 90 / 100 / 110 and prices 5 / 3 / 2. -/
theorem butterfly_profit_loss_sum_witness :
    (butterfly 90 100 110 5 3 2 100 true).2.max_profit
    + (butterfly 90 100 110 5 3 2 100 true).2.max_loss
    = 100 - 90 :=
  butterfly_profit_loss_sum 90 100 110 5 3 2 100 true
    (by norm_num) (by norm_num) (by norm_num)

/-! ## C1: the two VaR implementations -/

/-- Folding additions of a function over a list sums its image. -/
lemma foldl_add_eq_sum {α : Type} (f : α → ℝ) :
    ∀ (l : List α) (init : ℝ),
      List.foldl (fun acc x => acc + f x) init l = init + (l.map f).sum := by
  intro l
  induction l with
  | nil => intro init; simp
  | cons a t ih =>
    intro init
    simp only [List.foldl, List.map, List.sum_cons]
    rw [ih]
    ring

/-- C1 counterexample: on a single one-coin position priced at 100,
Portfolio.get_var_95 returns 2 (two percent of notional), which differs
from the claimed total_notional * (0.20 / sqrt 252) * 1.645 = 2.0725...;
so the VaR returned is not the parametric formula of the claim. -/
theorem var95_formula_cex :
    get_var_95 [var_cex_position] none
      ≠ portfolio_total_notional [var_cex_position] none
        * (0.20 / Real.sqrt 252) * 1.645 := by
  have hval : get_var_95 [var_cex_position] none = 2 := by
    norm_num [get_var_95, var95_price, var_cex_position]
  have hnot : portfolio_total_notional [var_cex_position] none = 100 := by
    norm_num [portfolio_total_notional, var95_price, var_cex_position]
  rw [hval, hnot]
  intro h
  have hpos : 0 < Real.sqrt 252 := Real.sqrt_pos.mpr (by norm_num)
  have hsq : Real.sqrt 252 ^ 2 = 252 := Real.sq_sqrt (by norm_num)
  have h2 : Real.sqrt 252 = 16.45 := by
    field_simp [ne_of_gt hpos] at h
    linarith
  rw [h2] at hsq
  norm_num at hsq

/-- C1 (amended): Portfolio.get_var_95 returns exactly 2% of the total
absolute notional, with no volatility or confidence parameter at all,
while the stress-testing _calculate_portfolio_var returns
portfolio_value * (0.20 / sqrt 252) * 1.645 with the 20% annualized
volatility hardcoded and its confidence argument ignored. -/
theorem var95_code_behavior (positions : List Position)
    (current_prices : Option (String → Option ℝ))
    (portfolio_positions : List (String × ℝ)) (prices : String → Option ℝ)
    (confidence : ℝ) :
    get_var_95 positions current_prices
      = portfolio_total_notional positions current_prices * 0.02 ∧
    calculate_portfolio_var portfolio_positions prices confidence
      = stress_portfolio_value portfolio_positions prices
        * (0.20 / Real.sqrt 252) * 1.645 ∧
    calculate_portfolio_var portfolio_positions prices confidence
      = calculate_portfolio_var portfolio_positions prices 0.95 := by
  refine ⟨?_, rfl, rfl⟩
  rw [get_var_95, portfolio_total_notional,
    foldl_add_eq_sum (fun p => |p.qty * var95_price current_prices p|)]
  ring

/-! ## C5: put-call parity -/

/-- The error function is odd. -/
lemma erf_neg (x : ℝ) : erf (-x) = -erf x := by
  have h1 : (∫ t in (0:ℝ)..x, Real.exp (-(-t) ^ 2))
      = ∫ t in (-x)..(-(0:ℝ)), Real.exp (-t ^ 2) :=
    intervalIntegral.integral_comp_neg (fun t => Real.exp (-t ^ 2))
  simp only [neg_sq, neg_zero] at h1
  have h2 : (∫ t in (-x)..(0:ℝ), Real.exp (-t ^ 2))
      = -∫ t in (0:ℝ)..(-x), Real.exp (-t ^ 2) :=
    intervalIntegral.integral_symm 0 (-x)
  have key : (∫ t in (0:ℝ)..(-x), Real.exp (-t ^ 2))
      = -∫ t in (0:ℝ)..x, Real.exp (-t ^ 2) := by linarith
  rw [erf, erf, key]
  ring

/-- The standard normal CDF of x and of -x add to one. -/
lemma normal_cdf_add_neg (x : ℝ) : normal_cdf x + normal_cdf (-x) = 1 := by
  rw [normal_cdf, normal_cdf, neg_div, erf_neg]
  ring

/-- The algebraic core of put-call parity, for arbitrary d1 and d2. -/
lemma parity_core (Sv Kd a b : ℝ) :
    Sv * normal_cdf a - Kd * normal_cdf b
      - (Kd * normal_cdf (-b) - Sv * normal_cdf (-a)) = Sv - Kd := by
  have h1 : normal_cdf (-a) = 1 - normal_cdf a := by
    linarith [normal_cdf_add_neg a]
  have h2 : normal_cdf (-b) = 1 - normal_cdf b := by
    linarith [normal_cdf_add_neg b]
  rw [h1, h2]
  ring

/-- C5: for S, K, T, sigma > 0 the Black-Scholes call and put prices
satisfy put-call parity exactly: call - put = S - K * exp(-r*T). -/
theorem put_call_parity (S K T r sigma : ℝ) (hS : 0 < S) (hK : 0 < K)
    (hT : 0 < T) (hsigma : 0 < sigma) :
    black_scholes_call S K T r sigma - black_scholes_put S K T r sigma
      = S - K * Real.exp (-r * T) := by
  rw [black_scholes_call, black_scholes_put,
    if_neg (not_le.mpr hT), if_neg (not_le.mpr hT)]
  exact parity_core S (K * Real.exp (-r * T)) _ _

/-- Witness for C5 at S = 100, K = 90, T = 1, r = 0.05, sigma = 0.5. -/
theorem put_call_parity_witness :
    black_scholes_call 100 90 1 0.05 0.5 - black_scholes_put 100 90 1 0.05 0.5
      = 100 - 90 * Real.exp (-0.05 * 1) :=
  put_call_parity 100 90 1 0.05 0.5 (by norm_num) (by norm_num)
    (by norm_num) (by norm_num)

/-! ## C6: the implied-volatility solver -/

/-- Clamping to [0.01, 5] lands in [0.01, 5]. -/
lemma clamp_mem (x : ℝ) : max 0.01 (min 5 x) ∈ Set.Icc (0.01:ℝ) 5 :=
  ⟨le_max_left _ _, max_le (by norm_num) (min_le_left _ _)⟩

/-- Whatever the fuel, the solver loop keeps sigma inside [0.01, 5] once
it starts there, because every new iterate is clamped before use. -/
lemma ivLoop_mem (market_price S K T r : ℝ) (option_type : String) :
    ∀ (n : ℕ) (sigma : ℝ), sigma ∈ Set.Icc (0.01:ℝ) 5 →
      ivLoop market_price S K T r option_type n sigma ∈ Set.Icc (0.01:ℝ) 5 := by
  intro n
  induction n with
  | zero => intro sigma h; simpa [ivLoop] using h
  | succ n ih =>
    intro sigma h
    simp only [ivLoop]
    split_ifs
    all_goals first
      | exact h
      | exact clamp_mem _
      | exact ih _ (clamp_mem _)

/-- C6: for T > 0 the implied-volatility solver runs the Newton-Raphson
loop for at most 100 iterations from sigma = 0.5; since every iterate is
clamped to [0.01, 5.0], the returned sigma lies in [0.01, 5.0]; an
iteration whose raw vega has absolute value below 1e-10 stops and returns
the incoming sigma unchanged; and an iteration whose clamped update moves
sigma by less than 1e-6 stops and returns the clamped update. -/
theorem iv_solver_bounds (market_price S K T r : ℝ) (option_type : String)
    (hT : 0 < T) :
    calculate_implied_volatility market_price S K T r option_type
      = ivLoop market_price S K T r option_type 100 0.5
    ∧ calculate_implied_volatility market_price S K T r option_type
        ∈ Set.Icc (0.01:ℝ) 5
    ∧ (∀ (n : ℕ) (sigma : ℝ),
        |(calculate_greeks S K T r sigma option_type).vega * 100| < 1e-10 →
        ivLoop market_price S K T r option_type (n + 1) sigma = sigma)
    ∧ (∀ (n : ℕ) (sigma : ℝ),
        ¬ |(calculate_greeks S K T r sigma option_type).vega * 100| < 1e-10 →
        |max 0.01 (min 5 (sigma + (market_price -
            (if option_type = "call" then black_scholes_call S K T r sigma
              else black_scholes_put S K T r sigma)) /
            ((calculate_greeks S K T r sigma option_type).vega * 100))) - sigma|
          < 1e-6 →
        ivLoop market_price S K T r option_type (n + 1) sigma
          = max 0.01 (min 5 (sigma + (market_price -
            (if option_type = "call" then black_scholes_call S K T r sigma
              else black_scholes_put S K T r sigma)) /
            ((calculate_greeks S K T r sigma option_type).vega * 100)))) := by
  have hstart : calculate_implied_volatility market_price S K T r option_type
      = ivLoop market_price S K T r option_type 100 0.5 := by
    rw [calculate_implied_volatility, if_neg (not_le.mpr hT)]
  refine ⟨hstart, ?_, ?_, ?_⟩
  · rw [hstart]
    exact ivLoop_mem market_price S K T r option_type 100 0.5
      (by constructor <;> norm_num)
  · intro n sigma hveg
    simp only [ivLoop]
    rw [if_pos hveg]
  · intro n sigma hveg hconv
    simp only [ivLoop]
    rw [if_neg hveg, if_pos hconv]

/-- Witness for C6: the bound on the returned sigma at a concrete input. -/
theorem iv_solver_bounds_witness :
    calculate_implied_volatility 10 100 100 1 0.05 "call"
      ∈ Set.Icc (0.01:ℝ) 5 :=
  (iv_solver_bounds 10 100 100 1 0.05 "call" (by norm_num)).2.1

/-! ## C3: zero signed delta in the hedge search -/

/-- A chain holding a call or put whose delta is zero drives the candidate
loop into the unguarded division and raises ZeroDivisionError. -/
lemma buildRecs_zero_delta (hedge_required : ℚ) (max_cost : Option ℚ) :
    ∀ (chain : List OptionContract),
      (∃ c ∈ chain,
        c.option_type ∈ (["call", "put"] : List String) ∧ c.delta = 0) →
      buildRecs hedge_required max_cost chain
        = Except.error PyError.zeroDivisionError := by
  intro chain
  induction chain with
  | nil =>
    rintro ⟨c, hc, _⟩
    exact absurd hc (List.not_mem_nil c)
  | cons o rest ih =>
    rintro ⟨c, hc, hval, hdelta⟩
    rcases List.mem_cons.mp hc with rfl | hmem
    · have hnot : ¬ c.option_type ∉ (["call", "put"] : List String) :=
        not_not_intro hval
      simp only [buildRecs, if_neg hnot]
      rw [hdelta]
      simp
    · have herr := ih ⟨c, hmem, hval, hdelta⟩
      simp only [buildRecs]
      split_ifs <;> simp [herr]

/-- C3 counterexample: the claim says a contract with zero signed delta is
skipped and a recommendation list is still returned, but on a chain whose
only contract is a zero-delta call the hedge search divides by zero and
raises. -/
theorem hedge_zero_delta_cex :
    find_optimal_hedge 1 100 [zero_delta_call] 0 none
      = Except.error PyError.zeroDivisionError := by
  norm_num [find_optimal_hedge, buildRecs, zero_delta_call]

/-- C3 (amended): find_optimal_hedge does not skip a call or put contract
whose delta is zero.  Whenever the required hedge is at least the 0.01
tolerance and the chain holds such a contract, the quantity computation
divides by a zero signed delta and the call raises ZeroDivisionError
instead of returning a recommendation list. -/
theorem hedge_zero_delta_error (portfolio_delta S target_delta : ℚ)
    (option_chain : List OptionContract) (max_cost : Option ℚ)
    (htol : ¬ |target_delta - portfolio_delta| < 0.01)
    (hzero : ∃ c ∈ option_chain,
      c.option_type ∈ (["call", "put"] : List String) ∧ c.delta = 0) :
    find_optimal_hedge portfolio_delta S option_chain target_delta max_cost
      = Except.error PyError.zeroDivisionError := by
  simp only [find_optimal_hedge, if_neg htol]
  rw [buildRecs_zero_delta (target_delta - portfolio_delta) max_cost
    option_chain hzero]

/-- Witness for C3 (amended) on a portfolio delta of 2. -/
theorem hedge_zero_delta_error_witness :
    find_optimal_hedge 2 100 [zero_delta_call] 0 none
      = Except.error PyError.zeroDivisionError :=
  hedge_zero_delta_error 2 100 0 [zero_delta_call] none (by norm_num)
    ⟨zero_delta_call, by simp, by simp [zero_delta_call], rfl⟩

/-! ## C9: effectiveness is always within [0, 1] -/

/-- Every recommendation the candidate loop builds has an effectiveness in
[0, 1]: it is min of 1 and a quotient of absolute values. -/
lemma buildRecs_effectiveness (hedge_required : ℚ) (max_cost : Option ℚ) :
    ∀ (chain : List OptionContract) (l : List HedgeRec),
      buildRecs hedge_required max_cost chain = Except.ok l →
      ∀ rec ∈ l, 0 ≤ rec.effectiveness ∧ rec.effectiveness ≤ 1 := by
  intro chain
  induction chain with
  | nil =>
    intro l h rec hrec
    simp only [buildRecs] at h
    cases h
    exact absurd hrec (List.not_mem_nil rec)
  | cons o rest ih =>
    intro l h rec hrec
    cases hb : buildRecs hedge_required max_cost rest with
    | error e =>
      simp only [buildRecs, hb] at h
      split_ifs at h <;> try cases h
    | ok rs =>
      simp only [buildRecs, hb] at h
      split_ifs at h <;> cases h
      all_goals first
        | exact ih _ hb rec hrec
        | exact (List.mem_cons.mp hrec).elim
            (fun h0 => by
              subst h0
              exact ⟨le_min (by norm_num)
                (div_nonneg (abs_nonneg _) (abs_nonneg _)), min_le_left _ _⟩)
            (fun hmem => ih _ hb rec hmem)

/-- C9: every recommendation returned by find_optimal_hedge carries an
effectiveness between 0 and 1: the source computes
min(1.0, |quantity * signed_delta| / |hedge_required|). -/
theorem hedge_effectiveness_bounds (portfolio_delta S target_delta : ℚ)
    (option_chain : List OptionContract) (max_cost : Option ℚ)
    (recs : List HedgeRec)
    (h : find_optimal_hedge portfolio_delta S option_chain target_delta max_cost
      = Except.ok recs) :
    ∀ rec ∈ recs, 0 ≤ rec.effectiveness ∧ rec.effectiveness ≤ 1 := by
  intro rec hrec
  simp only [find_optimal_hedge] at h
  split_ifs at h with htol
  · cases h
    exact absurd hrec (List.not_mem_nil rec)
  · cases hb : buildRecs (target_delta - portfolio_delta) max_cost option_chain with
    | error e => rw [hb] at h; cases h
    | ok l =>
      rw [hb] at h
      cases h
      have h1 : rec ∈ l.mergeSort recommendation_le := List.mem_of_mem_take hrec
      have h2 : rec ∈ l := List.mem_mergeSort.mp h1
      exact buildRecs_effectiveness (target_delta - portfolio_delta) max_cost
        option_chain l hb rec h2

/-- Witness for C9 on a single half-delta call hedging a delta of 1. -/
theorem hedge_effectiveness_bounds_witness :
    0 ≤ half_delta_call_rec.effectiveness
      ∧ half_delta_call_rec.effectiveness ≤ 1 :=
  hedge_effectiveness_bounds 1 100 0 [half_delta_call] none [half_delta_call_rec]
    (by norm_num [find_optimal_hedge, buildRecs, mid_price, max_cost_exceeded,
      half_delta_call, half_delta_call_rec,
      show ("call" : String) ≠ "put" from by decide])
    half_delta_call_rec (by simp)

/-! ## C10: concentration risk invariants -/

/-- Every notional recorded in position_sizes is an absolute value, hence
nonnegative. -/
lemma position_sizes_nonneg (positions : List RiskPosition)
    (prices : String → Option ℚ) :
    ∀ x ∈ position_sizes positions prices, 0 ≤ x.2 := by
  intro x hx
  obtain ⟨p, hp, hf⟩ := List.mem_filterMap.mp hx
  dsimp only at hf
  split_ifs at hf <;> cases hf
  exact abs_nonneg _

/-- The sum of a front segment of a nonnegative list is at most the full sum. -/
lemma sum_take_le (l : List ℚ) (h : ∀ x ∈ l, 0 ≤ x) (n : ℕ) :
    (l.take n).sum ≤ l.sum := by
  conv_rhs => rw [← List.take_append_drop n l]
  rw [List.sum_append]
  have hd : 0 ≤ (l.drop n).sum :=
    List.sum_nonneg (fun x hx => h x (List.drop_subset n l hx))
  linarith

/-- The percentage bounds of calculate_concentration_risk, stated over an
arbitrary sorted list of notionals whose total is positive. -/
lemma concentration_core (sorted : List (String × ℚ)) (total : ℚ)
    (htpos : 0 < total) (hnn : ∀ x ∈ sorted, 0 ≤ x.2)
    (hsum : (sorted.map Prod.snd).sum = total) :
    0 ≤ (if sorted = [] then 0 else ((sorted.headD ("", 0)).2 / total) * 100)
    ∧ (if sorted = [] then 0 else ((sorted.headD ("", 0)).2 / total) * 100)
        ≤ (((sorted.take 3).map Prod.snd).sum / total) * 100
    ∧ (((sorted.take 3).map Prod.snd).sum / total) * 100 ≤ 100 := by
  have htake : ((sorted.take 3).map Prod.snd).sum ≤ total := by
    rw [List.map_take]
    calc ((sorted.map Prod.snd).take 3).sum
        ≤ (sorted.map Prod.snd).sum := by
          refine sum_take_le _ ?_ 3
          intro x hx
          obtain ⟨y, hy, rfl⟩ := List.mem_map.mp hx
          exact hnn y hy
      _ = total := hsum
  cases sorted with
  | nil =>
    simp [htpos.le]
  | cons a t =>
    have hne : (a :: t) ≠ [] := List.cons_ne_nil a t
    rw [if_neg hne]
    have ha : 0 ≤ a.2 := hnn a (List.mem_cons_self a t)
    have hstep : a.2 ≤ (((a :: t).take 3).map Prod.snd).sum := by
      have h3 : (a :: t).take 3 = a :: t.take 2 := rfl
      rw [h3]
      simp only [List.map_cons, List.sum_cons]
      have h0 : 0 ≤ ((t.take 2).map Prod.snd).sum := by
        refine List.sum_nonneg ?_
        intro x hx
        obtain ⟨y, hy, rfl⟩ := List.mem_map.mp hx
        exact hnn y (List.mem_cons_of_mem a (List.take_subset 2 t hy))
      linarith
    refine ⟨?_, ?_, ?_⟩
    · exact mul_nonneg (div_nonneg ha htpos.le) (by norm_num)
    · exact mul_le_mul_of_nonneg_right
        ((div_le_div_iff_of_pos_right htpos).mpr hstep) (by norm_num)
    · rw [div_mul_eq_mul_div, div_le_iff₀ htpos]
      linarith

/-- C10: calculate_concentration_risk always returns percentages with
0 ≤ largest_position_pct ≤ top_3_concentration ≤ 100, and returns exactly
zero for both when the position list is empty or the accumulated total
notional is zero. -/
theorem concentration_risk_bounds (positions : List RiskPosition)
    (prices : String → Option ℚ) :
    0 ≤ (calculate_concentration_risk positions prices).largest_position_pct
    ∧ (calculate_concentration_risk positions prices).largest_position_pct
        ≤ (calculate_concentration_risk positions prices).top_3_concentration
    ∧ (calculate_concentration_risk positions prices).top_3_concentration ≤ 100
    ∧ calculate_concentration_risk [] prices = ⟨0, 0⟩
    ∧ (metrics_total_notional positions prices = 0 →
        calculate_concentration_risk positions prices = ⟨0, 0⟩) := by
  have hempty : calculate_concentration_risk [] prices = ⟨0, 0⟩ := by
    simp [calculate_concentration_risk]
  have hzero : metrics_total_notional positions prices = 0 →
      calculate_concentration_risk positions prices = ⟨0, 0⟩ := by
    intro ht
    rcases eq_or_ne positions [] with he | hne
    · subst he
      exact hempty
    · simp only [calculate_concentration_risk, if_neg hne, if_pos ht]
  have hbounds :
      0 ≤ (calculate_concentration_risk positions prices).largest_position_pct
      ∧ (calculate_concentration_risk positions prices).largest_position_pct
          ≤ (calculate_concentration_risk positions prices).top_3_concentration
      ∧ (calculate_concentration_risk positions prices).top_3_concentration
          ≤ 100 := by
    by_cases h1 : positions = []
    · subst h1
      rw [hempty]
      norm_num
    · by_cases h2 : metrics_total_notional positions prices = 0
      · rw [hzero h2]
        norm_num
      · have h0le : 0 ≤ metrics_total_notional positions prices := by
          refine List.sum_nonneg ?_
          intro x hx
          obtain ⟨y, hy, rfl⟩ := List.mem_map.mp hx
          exact position_sizes_nonneg positions prices y hy
        have htpos : 0 < metrics_total_notional positions prices :=
          lt_of_le_of_ne h0le (Ne.symm h2)
        have hsnn : ∀ x ∈ (position_sizes positions prices).mergeSort
            (fun a b => decide (b.2 ≤ a.2)), 0 ≤ x.2 :=
          fun x hx => position_sizes_nonneg positions prices x
            (List.mem_mergeSort.mp hx)
        have hsum : (((position_sizes positions prices).mergeSort
            (fun a b => decide (b.2 ≤ a.2))).map Prod.snd).sum
            = metrics_total_notional positions prices :=
          ((List.mergeSort_perm (position_sizes positions prices)
            (fun a b => decide (b.2 ≤ a.2))).map Prod.snd).sum_eq
        have hcore := concentration_core
          ((position_sizes positions prices).mergeSort
            (fun a b => decide (b.2 ≤ a.2)))
          (metrics_total_notional positions prices) htpos hsnn hsum
        simp only [calculate_concentration_risk]
        rw [if_neg h1, if_neg h2]
        exact hcore
  exact ⟨hbounds.1, hbounds.2.1, hbounds.2.2, hempty, hzero⟩

/-- Witness for C10 on a single position with no quoted price, where the
accumulated total notional is zero. -/
theorem concentration_risk_bounds_witness :
    calculate_concentration_risk [unpriced_position] no_prices = ⟨0, 0⟩ ∧
    0 ≤ (calculate_concentration_risk
      [unpriced_position] no_prices).largest_position_pct :=
  ⟨(concentration_risk_bounds [unpriced_position] no_prices).2.2.2.2
      (by norm_num [metrics_total_notional, position_sizes,
        unpriced_position, no_prices]),
    (concentration_risk_bounds [unpriced_position] no_prices).1⟩
